import Mathlib

/-!
Verification of the exported function surface declared in
`src/resources/bin/light_meter_dll/mkusb.h`.

The header is a flat list of C declarations (no function bodies), so the
embedding is a data-level transcription: each `DLLEXP ret __cdecl name(params);`
line becomes one `CDecl` record, and the spec's claims become decidable
properties of the resulting list `mkusbHeader`.
-/

/-- C types appearing in the header: value scalars plus single-level raw
pointers (`char*`, `float*`, `double*`, `int*`, `bool*`, `unsigned int*`,
`void*`). `unsigned` with no base type in the source (`fir_cutfreq`) is
`unsigned int`, transcribed as `uint`. -/
inductive CType where
  | void
  | bool
  | int
  | uint
  | ushort
  | char
  | float
  | double
  | ptr (t : CType)
  deriving DecidableEq, BEq

/-- One formal parameter of a declaration: its C type and its declared name. -/
structure CParam where
  ty : CType
  name : String
  deriving DecidableEq, BEq

/-- One declaration of the header: return type, parameters in order, and the
three linkage facts visible on its source line — the `DLLEXP`
dllexport/dllimport decoration, the `__cdecl` calling convention, and whether
the line sits inside the header's `extern "C" { ... }` region (lines 12-125). -/
structure CDecl where
  name : String
  ret : CType
  params : List CParam
  dllexp : Bool
  cdecl : Bool
  externC : Bool
  deriving DecidableEq, BEq

open CType in
/-- The 53 declarations of `mkusb.h`, lines 17-121, transcribed in source
order. Every line of the source carries `DLLEXP` and `__cdecl`, and all lines
lie between the `extern "C" {` at line 13 and the `}` at line 124. -/
def mkusbHeader : List CDecl := [
  ⟨"mk_version", uint, [], true, true, true⟩,
  ⟨"mk_Init", bool, [⟨int, "isMonitor"⟩, ⟨int, "msec"⟩], true, true, true⟩,
  ⟨"mk_Close", void, [], true, true, true⟩,
  ⟨"mk_IsUpdate", bool, [], true, true, true⟩,
  ⟨"mk_SpDevScan", bool, [], true, true, true⟩,
  ⟨"mk_FindFirst", bool, [⟨ptr char, "name"⟩], true, true, true⟩,
  ⟨"mk_FindNext", bool, [⟨ptr char, "name"⟩], true, true, true⟩,
  ⟨"mk_FindClose", bool, [], true, true, true⟩,
  ⟨"mk_GetDeviceCnt", int, [], true, true, true⟩,
  ⟨"mk_GetOptSnByName", int, [⟨ptr char, "name"⟩, ⟨ptr char, "sn"⟩], true, true, true⟩,
  ⟨"mk_OpenSpDev", int, [⟨ptr char, "Name"⟩], true, true, true⟩,
  ⟨"mk_OpenSpDev_OptSn", int, [⟨ptr char, "sn"⟩], true, true, true⟩,
  ⟨"mk_CloseSpDev", bool, [⟨int, "i"⟩], true, true, true⟩,
  ⟨"mk_Msr_Capture", bool, [⟨int, "i"⟩, ⟨ushort, "isAuto"⟩, ⟨ushort, "ExpTime"⟩], true, true, true⟩,
  ⟨"mk_Msr_Capture_multi", bool, [⟨ptr int, "list"⟩, ⟨ptr bool, "result"⟩, ⟨int, "dev_cnt"⟩, ⟨ushort, "isAuto"⟩, ⟨ushort, "ExpTime"⟩], true, true, true⟩,
  ⟨"mk_Msr_Dark", bool, [⟨int, "i"⟩], true, true, true⟩,
  ⟨"mk_Msr_GetDarkStus", bool, [⟨int, "i"⟩, ⟨ptr int, "stus"⟩], true, true, true⟩,
  ⟨"mk_Msr_Dark_multi", bool, [⟨ptr int, "list"⟩, ⟨int, "dev_cnt"⟩, ⟨ptr bool, "pErr"⟩], true, true, true⟩,
  ⟨"mk_Msr_SetMaxExpTime", bool, [⟨int, "i"⟩, ⟨uint, "maxtime"⟩], true, true, true⟩,
  ⟨"mk_Msr_SetExpMode", bool, [⟨int, "i"⟩, ⟨uint, "mode"⟩], true, true, true⟩,
  ⟨"mk_Msr_AutoDarkCtrl", bool, [⟨int, "i"⟩, ⟨uint, "ctl"⟩], true, true, true⟩,
  ⟨"mk_Msr_SetCorrMatrixCH", bool, [⟨int, "i"⟩, ⟨uint, "ch"⟩], true, true, true⟩,
  ⟨"mk_Msr_GetCorrMatrixPara", bool, [⟨int, "i"⟩, ⟨uint, "ch"⟩, ⟨ptr char, "name"⟩, ⟨ptr double, "data"⟩], true, true, true⟩,
  ⟨"mk_Msr_SetCorrMatrixPara", bool, [⟨int, "i"⟩, ⟨uint, "ch"⟩, ⟨ptr char, "name"⟩, ⟨ptr double, "data"⟩], true, true, true⟩,
  ⟨"mk_Msr_GenerateCorrMatrix", bool, [⟨ptr double, "ref"⟩, ⟨ptr double, "mes"⟩, ⟨int, "len"⟩, ⟨ptr double, "corr"⟩, ⟨int, "colorspace"⟩], true, true, true⟩,
  ⟨"mk_GetData", bool, [⟨int, "i"⟩, ⟨int, "type"⟩, ⟨ptr float, "data"⟩], true, true, true⟩,
  ⟨"mk_GetSpectrum", bool, [⟨int, "i"⟩, ⟨int, "str"⟩, ⟨int, "stp"⟩, ⟨ptr float, "data"⟩], true, true, true⟩,
  ⟨"mk_GetMicroMole", bool, [⟨int, "i"⟩, ⟨int, "str"⟩, ⟨int, "stp"⟩, ⟨ptr float, "data"⟩], true, true, true⟩,
  ⟨"mk_GetOptSn", bool, [⟨int, "i"⟩, ⟨ptr char, "sn"⟩], true, true, true⟩,
  ⟨"mk_GetLightStrnegth", int, [⟨int, "i"⟩], true, true, true⟩,
  ⟨"mk_lv_GetOptSn", bool, [⟨int, "i"⟩, ⟨ptr char, "sn"⟩], true, true, true⟩,
  ⟨"mk_lv_SetOptSn", bool, [⟨int, "i"⟩, ⟨ptr char, "sn"⟩], true, true, true⟩,
  ⟨"mk_Peri_GetTemp", bool, [⟨int, "i"⟩, ⟨ptr float, "data"⟩], true, true, true⟩,
  ⟨"mk_Peri_SetLCD", bool, [⟨int, "i"⟩, ⟨ushort, "percent"⟩], true, true, true⟩,
  ⟨"mk_Peri_KeyEnable", bool, [⟨int, "i"⟩], true, true, true⟩,
  ⟨"mk_Peri_KeyDisable", bool, [⟨int, "i"⟩], true, true, true⟩,
  ⟨"mk_Peri_KeyClear", bool, [⟨int, "i"⟩], true, true, true⟩,
  ⟨"mk_Peri_KeyGet", bool, [⟨int, "i"⟩, ⟨ptr uint, "key"⟩], true, true, true⟩,
  ⟨"mk_Info_Get", bool, [⟨int, "i"⟩, ⟨int, "id"⟩, ⟨ptr char, "str_info"⟩], true, true, true⟩,
  ⟨"mk_flk_Dark", bool, [⟨int, "i"⟩], true, true, true⟩,
  ⟨"mk_flk_SetPara", bool, [⟨int, "i"⟩, ⟨uint, "sample_num"⟩, ⟨uint, "sample_freq"⟩, ⟨uint, "fir_num"⟩, ⟨uint, "fir_cutfreq"⟩], true, true, true⟩,
  ⟨"mk_flk_Capture", bool, [⟨int, "i"⟩, ⟨ushort, "isAutoGain"⟩, ⟨ushort, "gain"⟩, ⟨ushort, "enable_fir"⟩], true, true, true⟩,
  ⟨"mk_flk_GetData", bool, [⟨int, "i"⟩, ⟨int, "type"⟩, ⟨ptr float, "data"⟩], true, true, true⟩,
  ⟨"mk_flk_GetTimeDomainWaveform", bool, [⟨int, "i"⟩, ⟨int, "size"⟩, ⟨ptr float, "data"⟩], true, true, true⟩,
  ⟨"mk_flk_GetFreqDomainWaveform", bool, [⟨int, "i"⟩, ⟨int, "size"⟩, ⟨ptr float, "freq"⟩, ⟨ptr float, "data"⟩], true, true, true⟩,
  ⟨"mk_senr_Msr_Dark", bool, [⟨int, "i"⟩], true, true, true⟩,
  ⟨"mk_senr_Msr_Capture", bool, [⟨int, "i"⟩, ⟨ushort, "isAuto"⟩, ⟨uint, "ExpTime"⟩], true, true, true⟩,
  ⟨"mk_sflk_Dark", bool, [⟨int, "i"⟩, ⟨uint, "uexptime"⟩, ⟨uint, "sampletime"⟩], true, true, true⟩,
  ⟨"mk_sflk_SetPara", bool, [⟨int, "i"⟩, ⟨uint, "sample_num"⟩, ⟨uint, "sample_freq"⟩, ⟨uint, "fir_num"⟩, ⟨uint, "fir_cutfreq"⟩], true, true, true⟩,
  ⟨"mk_sflk_Capture", bool, [⟨int, "i"⟩, ⟨uint, "uexptime"⟩, ⟨ushort, "enable_fir"⟩], true, true, true⟩,
  ⟨"mk_sflk_CaptureRaw", bool, [⟨int, "i"⟩, ⟨uint, "uexptime"⟩, ⟨ptr void, "ptr"⟩], true, true, true⟩,
  ⟨"mk_sflk_GetData", bool, [⟨int, "i"⟩, ⟨int, "type"⟩, ⟨ptr float, "data"⟩], true, true, true⟩,
  ⟨"mk_senr_GetPeakSpRaw", bool, [⟨int, "i"⟩, ⟨uint, "exptime"⟩, ⟨ptr uint, "data"⟩], true, true, true⟩
]

/-- Look up a declaration of the header by its exported symbol name. -/
def headerDecl (n : String) : Option CDecl :=
  mkusbHeader.find? (fun d => d.name == n)

/-- The signature of a declaration: return type and parameter types in order. -/
def declSig (n : String) : Option (CType × List CType) :=
  (headerDecl n).map (fun d => (d.ret, d.params.map (fun p => p.ty)))

/-- The type of the named parameter of the named declaration. -/
def paramTy (fn pn : String) : Option CType :=
  (headerDecl fn).bind (fun d =>
    (d.params.find? (fun p => p.name == pn)).map (fun p => p.ty))

/-- A return type that reports success/failure (`bool`) or a count/index
(`int` / `unsigned int`). -/
def retIsStatusOrCount (t : CType) : Bool :=
  t == CType.bool || t == CType.int || t == CType.uint

/-- The driver-global declarations of the header: calls that address the
driver or the enumeration cursor as a whole rather than one opened device. -/
def driverGlobalNames : List String :=
  ["mk_version", "mk_Init", "mk_Close", "mk_IsUpdate", "mk_SpDevScan",
   "mk_FindFirst", "mk_FindNext", "mk_FindClose", "mk_GetDeviceCnt",
   "mk_GetOptSnByName", "mk_OpenSpDev", "mk_OpenSpDev_OptSn"]

/-- The multi-device batch declarations, which take an `int*` device-index
list instead of a single index. -/
def batchMultiNames : List String :=
  ["mk_Msr_Capture_multi", "mk_Msr_Dark_multi"]

/-- A declaration whose first parameter is the plain `int` device index `i`. -/
def firstParamIsDevIndex (d : CDecl) : Bool :=
  match d.params with
  | p :: _ => p.ty == CType.int && p.name == "i"
  | [] => false

/-- A by-value scalar parameter type of the header. -/
def isValueScalar (t : CType) : Bool :=
  match t with
  | CType.int | CType.uint | CType.ushort => true
  | _ => false

/-- A raw single-level pointer: a pointer whose pointee is not itself a
pointer. Every buffer of the header crosses as such a pointer, with no
length-carrying structure attached. -/
def isRawPtr (t : CType) : Bool :=
  match t with
  | CType.ptr (CType.ptr _) => false
  | CType.ptr _ => true
  | _ => false

/-- A declaration whose name starts with `mk_Get` and whose first parameter is
the `int` device index `i`: the per-device getter queries of the header. -/
def perDeviceGetQuery (d : CDecl) : Bool :=
  "mk_Get".data.isPrefixOf d.name.data && firstParamIsDevIndex d

/-- The largest value representable in an unsigned C parameter type of the
given width (16-bit `unsigned short`, 32-bit `unsigned int`). -/
def ctypeMaxVal (t : CType) : Option Nat :=
  match t with
  | CType.ushort => some 65535
  | CType.uint => some 4294967295
  | _ => none

/-- Whether the value `v` is representable in the unsigned parameter type `t`. -/
def representableIn (t : CType) (v : Nat) : Bool :=
  (ctypeMaxVal t).any (fun m => decide (v ≤ m))

open CType

/-- Claim C1, counterexample: the claim says every declared function returns
`bool` or an integer count/index, but `mk_Close` (line 21) is declared with
return type `void`, so the universal statement over the header is false. -/
theorem C1_counterexample :
    headerDecl "mk_Close" = some ⟨"mk_Close", void, [], true, true, true⟩ ∧
    retIsStatusOrCount void = false ∧
    mkusbHeader.all (fun d => retIsStatusOrCount d.ret) = false := by
  refine ⟨rfl, rfl, ?_⟩
  decide

/-- Claim C1 as amended: every function declared in the header except
`mk_Close` has return type `bool`, `int` or `unsigned int`; `mk_Close` alone
returns `void`. -/
theorem C1_ret_types_except_close :
    mkusbHeader.all (fun d => d.name == "mk_Close" || retIsStatusOrCount d.ret) = true ∧
    (mkusbHeader.filter (fun d => !retIsStatusOrCount d.ret)).map (fun d => d.name)
      = ["mk_Close"] := by
  exact ⟨by decide, by decide⟩

/-- Claim C2: the device-lifecycle surface is exactly as described —
`mk_Init(int isMonitor, int msec)`, `mk_Close()` with no parameters,
enumeration via `mk_SpDevScan`, `mk_FindFirst(char*)`, `mk_FindNext(char*)`,
`mk_FindClose`, opening by name or serial number via `mk_OpenSpDev(char*)`
and `mk_OpenSpDev_OptSn(char*)` each returning an `int` handle, closing by
index via `mk_CloseSpDev(int)`, and `mk_GetDeviceCnt()` returning `int`. -/
theorem C2_device_lifecycle_surface :
    declSig "mk_Init" = some (bool, [int, int]) ∧
    paramTy "mk_Init" "isMonitor" = some int ∧
    paramTy "mk_Init" "msec" = some int ∧
    declSig "mk_Close" = some (void, []) ∧
    declSig "mk_SpDevScan" = some (bool, []) ∧
    declSig "mk_FindFirst" = some (bool, [ptr char]) ∧
    declSig "mk_FindNext" = some (bool, [ptr char]) ∧
    declSig "mk_FindClose" = some (bool, []) ∧
    declSig "mk_OpenSpDev" = some (int, [ptr char]) ∧
    declSig "mk_OpenSpDev_OptSn" = some (int, [ptr char]) ∧
    declSig "mk_CloseSpDev" = some (bool, [int]) ∧
    declSig "mk_GetDeviceCnt" = some (int, []) := by
  decide

/-- Claim C3: every declaration of the header carries the `DLLEXP`
dllexport/dllimport decoration and the `__cdecl` calling convention, and
every declaration lies inside the header's `extern "C"` region, so the whole
exported surface has C linkage. -/
theorem C3_c_linkage :
    mkusbHeader.all (fun d => d.dllexp && d.cdecl && d.externC) = true := by
  decide

/-- Claim C4: every declaration outside the driver-global set, the two batch
calls, and `mk_Msr_GenerateCorrMatrix` takes the plain `int` device index `i`
as its first parameter; no declaration in those three exception groups does;
the batch calls take an `int* list` first; and every named exception exists
in the header. -/
theorem C4_device_index_first :
    mkusbHeader.all (fun d =>
      if driverGlobalNames.contains d.name || batchMultiNames.contains d.name
          || d.name == "mk_Msr_GenerateCorrMatrix" then
        !(firstParamIsDevIndex d)
      else
        firstParamIsDevIndex d) = true ∧
    batchMultiNames.all (fun n => (headerDecl n).any (fun d =>
      (d.params.head?).any (fun p => p.ty == ptr int && p.name == "list"))) = true ∧
    driverGlobalNames.all (fun n => (headerDecl n).isSome) = true ∧
    (headerDecl "mk_Msr_GenerateCorrMatrix").isSome = true := by
  exact ⟨by decide, by decide, by decide, by decide⟩

/-- Claim C5: every parameter of every declaration is either a by-value
scalar or a raw single-level pointer (so all buffers cross as raw pointers
with caller-managed sizing), `mk_version` takes no arguments and returns
`unsigned int`, and it is the only declaration of the header returning
`unsigned int` — no other declared function is a version query. -/
theorem C5_raw_pointers_and_unique_version :
    mkusbHeader.all (fun d =>
      d.params.all (fun p => isValueScalar p.ty || isRawPtr p.ty)) = true ∧
    declSig "mk_version" = some (uint, []) ∧
    (mkusbHeader.filter (fun d => d.ret == uint)).map (fun d => d.name)
      = ["mk_version"] := by
  exact ⟨by decide, by decide, by decide⟩

/-- Claim C6: the calibration surface declares
`mk_Msr_GetCorrMatrixPara(int i, unsigned int ch, char* name, double* data)`
and `mk_Msr_SetCorrMatrixPara` with the same signature, and
`mk_Msr_GenerateCorrMatrix(double* ref, double* mes, int len, double* corr,
int colorspace)` returning `bool`. -/
theorem C6_calibration_surface :
    headerDecl "mk_Msr_GetCorrMatrixPara" = some ⟨"mk_Msr_GetCorrMatrixPara", bool,
      [⟨int, "i"⟩, ⟨uint, "ch"⟩, ⟨ptr char, "name"⟩, ⟨ptr double, "data"⟩],
      true, true, true⟩ ∧
    headerDecl "mk_Msr_SetCorrMatrixPara" = some ⟨"mk_Msr_SetCorrMatrixPara", bool,
      [⟨int, "i"⟩, ⟨uint, "ch"⟩, ⟨ptr char, "name"⟩, ⟨ptr double, "data"⟩],
      true, true, true⟩ ∧
    headerDecl "mk_Msr_GenerateCorrMatrix" = some ⟨"mk_Msr_GenerateCorrMatrix", bool,
      [⟨ptr double, "ref"⟩, ⟨ptr double, "mes"⟩, ⟨int, "len"⟩,
       ⟨ptr double, "corr"⟩, ⟨int, "colorspace"⟩],
      true, true, true⟩ := by
  exact ⟨rfl, rfl, rfl⟩

/-- Claim C7: the data-retrieval surface declares
`mk_GetData(int i, int type, float* data)`, spectrum and micromole queries
over a start/stop `int` range into a `float` buffer, the light-strength query
returning an `int` scalar from just the device index, and
`mk_senr_GetPeakSpRaw(int i, unsigned int exptime, unsigned int* data)`. -/
theorem C7_data_retrieval_surface :
    declSig "mk_GetData" = some (bool, [int, int, ptr float]) ∧
    paramTy "mk_GetData" "type" = some int ∧
    declSig "mk_GetSpectrum" = some (bool, [int, int, int, ptr float]) ∧
    paramTy "mk_GetSpectrum" "str" = some int ∧
    paramTy "mk_GetSpectrum" "stp" = some int ∧
    declSig "mk_GetMicroMole" = some (bool, [int, int, int, ptr float]) ∧
    declSig "mk_GetLightStrnegth" = some (int, [int]) ∧
    declSig "mk_senr_GetPeakSpRaw" = some (bool, [int, uint, ptr uint]) ∧
    paramTy "mk_senr_GetPeakSpRaw" "exptime" = some uint := by
  decide

/-- Claim C8: the header declares the misspelled symbol `mk_GetLightStrnegth`
and no symbol `mk_GetLightStrength`; the misspelled query takes only the
device index and returns its value directly as `int`, while every other
per-device `mk_Get*` query of the header (there are four others) returns
`bool` and writes its data through a pointer out-parameter. -/
theorem C8_light_strength_misspelled :
    headerDecl "mk_GetLightStrength" = none ∧
    headerDecl "mk_GetLightStrnegth"
      = some ⟨"mk_GetLightStrnegth", int, [⟨int, "i"⟩], true, true, true⟩ ∧
    mkusbHeader.all (fun d =>
      !(perDeviceGetQuery d) || d.name == "mk_GetLightStrnegth"
        || (d.ret == bool && d.params.any (fun p => isRawPtr p.ty))) = true ∧
    (mkusbHeader.filter perDeviceGetQuery).length = 5 := by
  exact ⟨by decide, by decide, by decide, by decide⟩

/-- Claim C9: both batch operations return one overall `bool` and also take a
caller-supplied `bool*` per-device outcome array (`result` in
`mk_Msr_Capture_multi`, `pErr` in `mk_Msr_Dark_multi`) alongside the `int*`
device-index list and its `int dev_cnt` length, so per-device failures are
reported separately from the overall status. -/
theorem C9_batch_per_device_results :
    headerDecl "mk_Msr_Capture_multi" = some ⟨"mk_Msr_Capture_multi", bool,
      [⟨ptr int, "list"⟩, ⟨ptr bool, "result"⟩, ⟨int, "dev_cnt"⟩,
       ⟨ushort, "isAuto"⟩, ⟨ushort, "ExpTime"⟩],
      true, true, true⟩ ∧
    headerDecl "mk_Msr_Dark_multi" = some ⟨"mk_Msr_Dark_multi", bool,
      [⟨ptr int, "list"⟩, ⟨int, "dev_cnt"⟩, ⟨ptr bool, "pErr"⟩],
      true, true, true⟩ := by
  exact ⟨rfl, rfl⟩

/-- Claim C10: `mk_Msr_Capture` takes `ExpTime` as 16-bit `unsigned short`,
while the exposure-time parameters of `mk_senr_Msr_Capture`, `mk_sflk_Dark`,
`mk_sflk_Capture`, `mk_sflk_CaptureRaw` and `mk_senr_GetPeakSpRaw` are 32-bit
`unsigned int`; the value 65536 is representable as the latter but not the
former, so the exposure ranges of the two capture subsystems differ. -/
theorem C10_exposure_width_inconsistent :
    paramTy "mk_Msr_Capture" "ExpTime" = some ushort ∧
    paramTy "mk_senr_Msr_Capture" "ExpTime" = some uint ∧
    paramTy "mk_sflk_Dark" "uexptime" = some uint ∧
    paramTy "mk_sflk_Capture" "uexptime" = some uint ∧
    paramTy "mk_sflk_CaptureRaw" "uexptime" = some uint ∧
    paramTy "mk_senr_GetPeakSpRaw" "exptime" = some uint ∧
    representableIn uint 65536 = true ∧
    representableIn ushort 65536 = false := by
  decide
